import Mathlib

/-!
Verification of the Clip core of the Video-Editing-Automation repository.

The repository's interface is src/include/Clip.h; its doc comments are the
authoritative contracts embedded here.  The implementation file Clip.c is
not part of src/, so every operation body below whose doc comment starts
with "Modelled from the spec" is a shallow embedding of the behaviour the
design specification describes for that missing function, stated over plain
Lean data (Int timestamps, lists of packets), with machine integers taken
at mathematical width.
-/

/-- Kind of media stream a packet belongs to: the video stream or the audio
stream of the source file. -/
inductive StreamKind where
  | video
  | audio
  deriving DecidableEq, Repr

/-- One demuxed packet (AVPacket as the Clip code inspects it): its stream
identity and its timestamp in the source's native clock; the payload is
opaque to this core and omitted. -/
structure Packet where
  stream : StreamKind
  pts : Int
  deriving DecidableEq, Repr

/-- A rational time base (ffmpeg AVRational): numerator and denominator. -/
structure AVRational where
  num : Int
  den : Int
  deriving DecidableEq, Repr

/-- Modelled from the spec: the decoding resource (VideoContext) reduced to
what the Clip operations inspect — the demuxer's packet list in file order,
the file's true pts extent, the native-tick duration of one video frame, and
the time bases of the two streams. -/
structure VideoContext where
  packets : List Packet
  file_start_pts : Int
  file_end_pts : Int
  frame_duration : Int
  video_time_base : AVRational
  audio_time_base : AVRational
  deriving DecidableEq, Repr

/-- The Clip record of src/include/Clip.h.  The C field `open` is embedded
as `isOpen` (a Lean keyword clash); the vid_ctx pointer and url string are
dropped — the context is passed explicitly to the operations and the locator
plays no role in the verified claims. -/
structure Clip where
  orig_start_pts : Int
  orig_end_pts : Int
  seek_pts : Int
  isOpen : Bool
  current_frame_idx : Int
  start_pts : Int
  end_pts : Int
  done_reading_video : Bool
  done_reading_audio : Bool
  deriving DecidableEq, Repr

/-- Header contract of get_abs_clip_pts: absolute pts of the clip, where a
relative pts of zero represents clip.orig_start_pts. -/
def get_abs_clip_pts (clip : Clip) (relative_pts : Int) : Int :=
  clip.orig_start_pts + relative_pts

/-- Header contract of cov_clip_pts_relative: the header states the return
value is abs_pts - clip.orig_start_pts. -/
def cov_clip_pts_relative (clip : Clip) (abs_pts : Int) : Int :=
  abs_pts - clip.orig_start_pts

/-- Modelled from the spec (Clip.c absent): compare_clips orders two clips
by their position in the edit sequence (sequence start pts), returning the
signed int64 three-way difference the header documents. -/
def compare_clips (first second : Clip) : Int :=
  first.start_pts - second.start_pts

/-- Lower end of the C int range, for the narrowing in list_compare_clips. -/
def c_int_min : Int := -(2 ^ 31)

/-- Upper end of the C int range, for the narrowing in list_compare_clips. -/
def c_int_max : Int := 2 ^ 31 - 1

/-- Modelled from the spec (Clip.c absent): the linked-list comparison
callback returns a C int and uses compare_clips internally; the int64 result
is narrowed into the int range in the sign-preserving way the header's
three-way contract requires. -/
def list_compare_clips (first second : Clip) : Int :=
  max c_int_min (min (compare_clips first second) c_int_max)

/-- Modelled from the spec (Clip.c absent): close releases the decoding
resource; closing an already-closed clip is a no-op and never an error. -/
def close_clip (clip : Clip) : Clip :=
  if clip.isOpen then { clip with isOpen := false } else clip

/-- A concrete clip taken from the spec's test scenario: native clock 90000
ticks per second, clip bounds [90000, 270000] (seconds 1 to 3). -/
def sampleClip : Clip :=
  { orig_start_pts := 90000
    orig_end_pts := 270000
    seek_pts := 90000
    isOpen := true
    current_frame_idx := 0
    start_pts := 0
    end_pts := 180000
    done_reading_video := false
    done_reading_audio := false }

/-- A closed variant of the sample clip, used to witness close semantics. -/
def closedSampleClip : Clip :=
  { sampleClip with isOpen := false }

/-- Modelled from the spec (Clip.c absent): header contract of
done_curr_pkt_stream — true when the clip has already read the entire stream
associated with this packet, i.e. the per-stream exhaustion flag of the
packet's stream is set; such a packet is to be skipped. -/
def done_curr_pkt_stream (clip : Clip) (pkt : Packet) : Bool :=
  if pkt.stream = StreamKind.video then clip.done_reading_video
  else clip.done_reading_audio

/-- Modelled from the spec: mark the exhaustion flag of the packet's stream
(the transition taken when a packet's timestamp lies beyond the end bound). -/
def set_done_pkt_stream (clip : Clip) (pkt : Packet) : Clip :=
  if pkt.stream = StreamKind.video then { clip with done_reading_video := true }
  else { clip with done_reading_audio := true }

/-- Modelled from the spec: init_internal_vars clears the per-stream
exhaustion flags used while reading stream data. -/
def init_internal_vars (clip : Clip) : Clip :=
  { clip with done_reading_video := false, done_reading_audio := false }

/-- Modelled from the spec: reset_packet_counter rewinds the cursor to the
start bound and clears the internal reading flags to allow another pass. -/
def reset_packet_counter (clip : Clip) : Clip :=
  { init_internal_vars clip with
    seek_pts := clip.orig_start_pts, current_frame_idx := 0 }

/-- Modelled from the spec: open acquires the decoding resource and leaves
the cursor at the start bound with a fresh read state (the external resource
acquisition itself is assumed to succeed; its failure mode carries no clip
state change). -/
def open_clip (clip : Clip) : Clip :=
  { clip with
    isOpen := true, seek_pts := clip.orig_start_pts, current_frame_idx := 0,
    done_reading_video := false, done_reading_audio := false }

/-- Modelled from the spec: the native pts of the frame with a given ordinal
in the original file — frame_duration native ticks per frame counted from
the file's first pts. -/
def frame_idx_pts (ctx : VideoContext) (idx : Int) : Int :=
  ctx.file_start_pts + idx * ctx.frame_duration

/-- Modelled from the spec: set the start bound by absolute pts.  The new
bound is validated against the current end bound and the file's true extent
before committing; on rejection the clip is returned unchanged beside a
negative code. -/
def set_clip_start (ctx : VideoContext) (clip : Clip) (pts : Int) : Int × Clip :=
  if clip.orig_end_pts < pts ∨ pts < ctx.file_start_pts ∨ ctx.file_end_pts < pts then
    (-1, clip)
  else
    (0, { clip with orig_start_pts := pts })

/-- Modelled from the spec: set the end bound by absolute pts, validated
against the current start bound and the file's true extent before
committing; on rejection the clip is returned unchanged beside a negative
code. -/
def set_clip_end (ctx : VideoContext) (clip : Clip) (pts : Int) : Int × Clip :=
  if pts < clip.orig_start_pts ∨ pts < ctx.file_start_pts ∨ ctx.file_end_pts < pts then
    (-1, clip)
  else
    (0, { clip with orig_end_pts := pts })

/-- Modelled from the spec: set the start bound by frame ordinal, delegating
to the absolute-pts variant. -/
def set_clip_start_frame (ctx : VideoContext) (clip : Clip) (frameIndex : Int) : Int × Clip :=
  set_clip_start ctx clip (frame_idx_pts ctx frameIndex)

/-- Modelled from the spec: set the end bound by frame ordinal, delegating
to the absolute-pts variant. -/
def set_clip_end_frame (ctx : VideoContext) (clip : Clip) (frameIndex : Int) : Int × Clip :=
  set_clip_end ctx clip (frame_idx_pts ctx frameIndex)

/-- Modelled from the spec: set both bounds by frame ordinals, validating
that the start does not exceed the end and that both lie within the file's
true extent, before committing both together. -/
def set_clip_bounds (ctx : VideoContext) (clip : Clip) (start_idx end_idx : Int) : Int × Clip :=
  if frame_idx_pts ctx end_idx < frame_idx_pts ctx start_idx ∨
      frame_idx_pts ctx start_idx < ctx.file_start_pts ∨
      ctx.file_end_pts < frame_idx_pts ctx end_idx then
    (-1, clip)
  else
    (0, { clip with
          orig_start_pts := frame_idx_pts ctx start_idx,
          orig_end_pts := frame_idx_pts ctx end_idx })

/-- Modelled from the spec: the bounded open — narrow the bounds to the
caller-supplied frame ordinals (rejecting invalid bounds) and then acquire
the resource. -/
def open_clip_bounds (ctx : VideoContext) (clip : Clip) (start_idx end_idx : Int) : Int × Clip :=
  if (set_clip_bounds ctx clip start_idx end_idx).1 < 0 then
    set_clip_bounds ctx clip start_idx end_idx
  else
    (0, open_clip (set_clip_bounds ctx clip start_idx end_idx).2)

/-- Saturation of an absolute position into the clip's own bounds, as used
by the seek operations. -/
def clamp_to_bounds (clip : Clip) (p : Int) : Int :=
  min (max p clip.orig_start_pts) clip.orig_end_pts

/-- Modelled from the spec: seek to a clip frame given as pts relative to
the clip.  The relative target becomes an absolute native position, is
clamped into [orig_start_pts, orig_end_pts], and is validated against the
file's true extent (SeekOutOfRangeError outside it); on success the cursor
moves there, both exhaustion flags reset and the frame counter is recomputed
from the new position. -/
def seek_clip_pts (ctx : VideoContext) (clip : Clip) (pts : Int) : Int × Clip :=
  if clamp_to_bounds clip (get_abs_clip_pts clip pts) < ctx.file_start_pts ∨
      ctx.file_end_pts < clamp_to_bounds clip (get_abs_clip_pts clip pts) then
    (-1, clip)
  else
    (0, { clip with
          seek_pts := clamp_to_bounds clip (get_abs_clip_pts clip pts),
          done_reading_video := false, done_reading_audio := false,
          current_frame_idx :=
            cov_clip_pts_relative clip (clamp_to_bounds clip (get_abs_clip_pts clip pts)) /
              ctx.frame_duration })

/-- Modelled from the spec: seek to a clip frame given by its index within
the clip, delegating to the relative-pts seek at that frame's relative
pts. -/
def seek_clip (ctx : VideoContext) (clip : Clip) (seekFrameIndex : Int) : Int × Clip :=
  seek_clip_pts ctx clip (seekFrameIndex * ctx.frame_duration)

/-- Outcome of one clip_read_packet call: a delivered packet (the C success
code with the packet in the out-parameter), the end-of-clip-boundary signal,
the true demuxer end of file, or the not-open failure — the latter three are
the negative C outcomes. -/
inductive ReadResult where
  | packet : Packet → ReadResult
  | endOfClip
  | eofError
  | notOpenError
  deriving DecidableEq, Repr

/-- Modelled from the spec: the demuxer's view after a seek to absolute
position p — the packets of the file from the first one at or after p. -/
def seek_stream (ctx : VideoContext) (p : Int) : List Packet :=
  ctx.packets.dropWhile (fun k => k.pts < p)

/-- Modelled from the spec: the implicit rewind taken on the read after an
exhausted pass — cursor back to the start bound, both exhaustion flags
cleared, frame counter zeroed. -/
def rewind_clip (clip : Clip) : Clip :=
  { clip with
    seek_pts := clip.orig_start_pts, current_frame_idx := 0,
    done_reading_video := false, done_reading_audio := false }

/-- Modelled from the spec: the packet-read loop over the demuxer's
remaining packets.  A packet of an already-exhausted stream is silently
skipped; a packet beyond the end bound marks its stream exhausted and is not
returned (ending the pass with the end-of-clip signal once both streams
are); a packet before the start bound is not returned either (the header:
only packets within clip boundaries are returned); an in-range packet is
returned, counting video frames; an empty demuxer is the true end of
file. -/
def read_loop : Clip → List Packet → Clip × List Packet × ReadResult
  | clip, [] => (clip, [], ReadResult.eofError)
  | clip, pkt :: rest =>
    if done_curr_pkt_stream clip pkt then
      read_loop clip rest
    else if clip.orig_end_pts < pkt.pts then
      if (set_done_pkt_stream clip pkt).done_reading_video &&
          (set_done_pkt_stream clip pkt).done_reading_audio then
        (set_done_pkt_stream clip pkt, rest, ReadResult.endOfClip)
      else
        read_loop (set_done_pkt_stream clip pkt) rest
    else if pkt.pts < clip.orig_start_pts then
      read_loop clip rest
    else if pkt.stream = StreamKind.video then
      ({ clip with current_frame_idx := clip.current_frame_idx + 1 },
        rest, ReadResult.packet pkt)
    else
      (clip, rest, ReadResult.packet pkt)

/-- Modelled from the spec: read one packet from the clip.  Fails when the
clip is not open; after an exhausted pass (both flags set) the call first
performs the implicit rewind — a seek of the resource to the start bound
with both flags cleared — and then reads; otherwise it reads on from the
demuxer's current remaining packets rem. -/
def clip_read_packet (ctx : VideoContext) (clip : Clip) (rem : List Packet) :
    Clip × List Packet × ReadResult :=
  if ¬ clip.isOpen then (clip, rem, ReadResult.notOpenError)
  else if clip.done_reading_video && clip.done_reading_audio then
    read_loop (rewind_clip clip) (seek_stream ctx clip.orig_start_pts)
  else
    read_loop clip rem

/-- Header accessor: time base of the clip's video stream (held by the
decoding resource). -/
def get_clip_video_time_base (ctx : VideoContext) : AVRational :=
  ctx.video_time_base

/-- Header accessor: time base of the clip's audio stream (held by the
decoding resource). -/
def get_clip_audio_time_base (ctx : VideoContext) : AVRational :=
  ctx.audio_time_base

/-- Modelled from the spec: round-to-nearest of the rational n / d for a
positive d, computed purely with integer arithmetic of unbounded width as
the floor of (2n + d) / (2d). -/
def rescale_round (n d : Int) : Int :=
  Int.fdiv (2 * n + d) (2 * d)

/-- Header contract of clip_ts_video: a raw video packet timestamp becomes
the pts relative to the clip's video stream. -/
def clip_ts_video (clip : Clip) (pkt_ts : Int) : Int :=
  cov_clip_pts_relative clip pkt_ts

/-- Modelled from the spec (Timebase.c absent): clip_ts_audio converts a raw
video packet timestamp into the clip-relative pts expressed in the audio
stream's clock — the relative video pts rescaled by the exact rational ratio
of the two stream time bases, rounded to the nearest integer tick. -/
def clip_ts_audio (ctx : VideoContext) (clip : Clip) (pkt_ts : Int) : Int :=
  rescale_round
    (clip_ts_video clip pkt_ts *
      ((get_clip_video_time_base ctx).num * (get_clip_audio_time_base ctx).den))
    ((get_clip_video_time_base ctx).den * (get_clip_audio_time_base ctx).num)

/-- The documented range invariant of the Clip.seek_pts field:
orig_start_pts ≤ seek_pts ≤ orig_end_pts. -/
def seek_pts_invariant (clip : Clip) : Prop :=
  clip.orig_start_pts ≤ clip.seek_pts ∧ clip.seek_pts ≤ clip.orig_end_pts

/-- A concrete decoding resource matching the spec's test scenario: a 90000
ticks-per-second native clock, file extent [0, 360000], 30 frames per
second, an audio clock of 48000 ticks per second, and packets on both
streams inside and beyond the sample clip's bounds. -/
def sampleCtx : VideoContext :=
  { packets :=
      [ { stream := StreamKind.video, pts := 90000 }
      , { stream := StreamKind.audio, pts := 90000 }
      , { stream := StreamKind.video, pts := 180000 }
      , { stream := StreamKind.video, pts := 300000 }
      , { stream := StreamKind.audio, pts := 300000 } ]
    file_start_pts := 0
    file_end_pts := 360000
    frame_duration := 3000
    video_time_base := { num := 1, den := 90000 }
    audio_time_base := { num := 1, den := 48000 } }

/-- The sample clip after a pass has exhausted both streams. -/
def exhaustedSampleClip : Clip :=
  { sampleClip with done_reading_video := true, done_reading_audio := true }

/-- C5: for every clip with ordered bounds and every absolute position p
inside the bounds, the relative and absolute pts conversions are mutually
inverse plain offsets by orig_start_pts. -/
theorem clip_pts_offset_roundtrip (clip : Clip) (r p : Int)
    (hle : clip.orig_start_pts ≤ clip.orig_end_pts)
    (hp1 : clip.orig_start_pts ≤ p) (hp2 : p ≤ clip.orig_end_pts) :
    cov_clip_pts_relative clip (get_abs_clip_pts clip r) = r ∧
    get_abs_clip_pts clip (cov_clip_pts_relative clip p) = p ∧
    cov_clip_pts_relative clip p = p - clip.orig_start_pts := by
  unfold cov_clip_pts_relative get_abs_clip_pts
  omega

/-- Witness for C5 on the spec's scenario clip: round trip at relative pts
90000 and absolute pts 180000. -/
theorem clip_pts_offset_roundtrip_witness :
    cov_clip_pts_relative sampleClip (get_abs_clip_pts sampleClip 90000) = 90000 ∧
    get_abs_clip_pts sampleClip (cov_clip_pts_relative sampleClip 180000) = 180000 ∧
    cov_clip_pts_relative sampleClip 180000 = 180000 - sampleClip.orig_start_pts :=
  clip_pts_offset_roundtrip sampleClip 90000 180000 (by decide) (by decide) (by decide)

/-- C8: compare_clips realises the documented three-way ordering on the
sequence start pts of the two clips and is antisymmetric. -/
theorem compare_clips_sign (a b : Clip) :
    (0 < compare_clips a b ↔ b.start_pts < a.start_pts) ∧
    (compare_clips a b < 0 ↔ a.start_pts < b.start_pts) ∧
    (compare_clips a b = 0 ↔ a.start_pts = b.start_pts) ∧
    (0 < compare_clips a b ↔ compare_clips b a < 0) := by
  unfold compare_clips
  omega

/-- C9: close_clip is idempotent: closing an already-closed clip is the
identity on the clip state, and a second close changes nothing. -/
theorem close_clip_idempotent :
    (∀ clip : Clip, clip.isOpen = false → close_clip clip = clip) ∧
    (∀ clip : Clip, close_clip (close_clip clip) = close_clip clip) := by
  constructor
  · intro clip h
    unfold close_clip
    simp [h]
  · intro clip
    unfold close_clip
    by_cases h : clip.isOpen <;> simp [h]

/-- Witness for C9: closing the already-closed sample clip is a no-op, and
a double close of the open sample clip equals a single close. -/
theorem close_clip_idempotent_witness :
    close_clip closedSampleClip = closedSampleClip ∧
    close_clip (close_clip sampleClip) = close_clip sampleClip :=
  ⟨close_clip_idempotent.1 closedSampleClip (by decide),
   close_clip_idempotent.2 sampleClip⟩

/-- C10: the linked-list comparator agrees in sign with compare_clips on
every pair of clips, including pairs whose int64 difference lies outside the
C int range (where the narrowing saturates instead of wrapping). -/
theorem list_compare_clips_sign (a b : Clip) :
    (0 < list_compare_clips a b ↔ 0 < compare_clips a b) ∧
    (list_compare_clips a b < 0 ↔ compare_clips a b < 0) ∧
    (list_compare_clips a b = 0 ↔ compare_clips a b = 0) := by
  unfold list_compare_clips c_int_min c_int_max
  rcases le_total (compare_clips a b) (2 ^ 31 - 1) with h1 | h1
  · rw [min_eq_left h1]
    rcases le_total (-(2 ^ 31)) (compare_clips a b) with h2 | h2
    · rw [max_eq_right h2]
      omega
    · rw [max_eq_left h2]
      omega
  · rw [min_eq_right h1]
    rw [max_eq_right (by omega)]
    omega

/-- Marking a stream exhausted changes no field besides the two exhaustion
flags; in particular cursor and bounds are untouched. -/
lemma set_done_pkt_stream_fields (c : Clip) (p : Packet) :
    (set_done_pkt_stream c p).seek_pts = c.seek_pts ∧
    (set_done_pkt_stream c p).orig_start_pts = c.orig_start_pts ∧
    (set_done_pkt_stream c p).orig_end_pts = c.orig_end_pts := by
  unfold set_done_pkt_stream
  split_ifs <;> exact ⟨rfl, rfl, rfl⟩

/-- The read loop never moves the seek cursor and never changes the clip
bounds: it only toggles exhaustion flags and the frame counter. -/
lemma read_loop_preserves_cursor (l : List Packet) :
    ∀ c : Clip, (read_loop c l).1.seek_pts = c.seek_pts ∧
      (read_loop c l).1.orig_start_pts = c.orig_start_pts ∧
      (read_loop c l).1.orig_end_pts = c.orig_end_pts := by
  induction l with
  | nil => intro c; exact ⟨rfl, rfl, rfl⟩
  | cons pkt rest ih =>
    intro c
    rw [read_loop]
    split_ifs with hdone hend hboth hstart hvid
    · exact ih c
    · exact set_done_pkt_stream_fields c pkt
    · obtain ⟨h1, h2, h3⟩ := ih (set_done_pkt_stream c pkt)
      obtain ⟨g1, g2, g3⟩ := set_done_pkt_stream_fields c pkt
      exact ⟨h1.trans g1, h2.trans g2, h3.trans g3⟩
    · exact ih c
    · exact ⟨rfl, rfl, rfl⟩
    · exact ⟨rfl, rfl, rfl⟩

/-- Opening a clip with ordered bounds establishes the cursor invariant. -/
lemma open_clip_invariant (c : Clip) (h : c.orig_start_pts ≤ c.orig_end_pts) :
    seek_pts_invariant (open_clip c) :=
  ⟨le_refl _, h⟩

/-- C4: setting the end bound strictly below the current start bound is
rejected with a negative outcome and the clip — in particular both bounds —
is returned unchanged; and every rejection of any of the four bounds-setting
variants likewise returns the clip unchanged (validate before commit). -/
theorem set_clip_end_rejection_atomic (ctx : VideoContext) (clip : Clip) (pts fi : Int) :
    (pts < clip.orig_start_pts →
      (set_clip_end ctx clip pts).1 < 0 ∧ (set_clip_end ctx clip pts).2 = clip) ∧
    ((set_clip_start ctx clip pts).1 < 0 → (set_clip_start ctx clip pts).2 = clip) ∧
    ((set_clip_end ctx clip pts).1 < 0 → (set_clip_end ctx clip pts).2 = clip) ∧
    ((set_clip_start_frame ctx clip fi).1 < 0 → (set_clip_start_frame ctx clip fi).2 = clip) ∧
    ((set_clip_end_frame ctx clip fi).1 < 0 → (set_clip_end_frame ctx clip fi).2 = clip) := by
  unfold set_clip_start_frame set_clip_end_frame set_clip_start set_clip_end
  refine ⟨?_, ?_, ?_, ?_, ?_⟩ <;> intro h
  · rw [if_pos (Or.inl h)]
    exact ⟨by norm_num, rfl⟩
  all_goals
    split_ifs at h ⊢
    · rfl
    · norm_num at h

/-- Witness for C4: on the scenario clip (start bound 90000), setting the
end bound to 80000 is rejected and the clip is unchanged. -/
theorem set_clip_end_rejection_atomic_witness :
    (set_clip_end sampleCtx sampleClip 80000).1 < 0 ∧
    (set_clip_end sampleCtx sampleClip 80000).2 = sampleClip :=
  (set_clip_end_rejection_atomic sampleCtx sampleClip 80000 0).1 (by decide)

/-- C3: under the clip's documented bounds invariant (bounds ordered and
inside the file's true extent), every relative seek succeeds, clamps its
absolute target into [orig_start_pts, orig_end_pts], and clears both
exhaustion flags; a negative outcome could only arise from a computed
absolute position outside the file's true extent; and the frame-index seek
is the relative-pts seek at that frame's relative pts. -/
theorem seek_clip_clamps_and_succeeds (ctx : VideoContext) (clip : Clip)
    (h1 : ctx.file_start_pts ≤ clip.orig_start_pts)
    (h2 : clip.orig_start_pts ≤ clip.orig_end_pts)
    (h3 : clip.orig_end_pts ≤ ctx.file_end_pts) :
    (∀ pts : Int,
      (seek_clip_pts ctx clip pts).1 = 0 ∧
      (seek_clip_pts ctx clip pts).2.seek_pts =
        clamp_to_bounds clip (get_abs_clip_pts clip pts) ∧
      clip.orig_start_pts ≤ (seek_clip_pts ctx clip pts).2.seek_pts ∧
      (seek_clip_pts ctx clip pts).2.seek_pts ≤ clip.orig_end_pts ∧
      (seek_clip_pts ctx clip pts).2.done_reading_video = false ∧
      (seek_clip_pts ctx clip pts).2.done_reading_audio = false ∧
      ((seek_clip_pts ctx clip pts).1 < 0 →
        get_abs_clip_pts clip pts < ctx.file_start_pts ∨
          ctx.file_end_pts < get_abs_clip_pts clip pts)) ∧
    (∀ idx : Int,
      seek_clip ctx clip idx = seek_clip_pts ctx clip (idx * ctx.frame_duration)) := by
  constructor
  · intro pts
    have hts : clip.orig_start_pts ≤ clamp_to_bounds clip (get_abs_clip_pts clip pts) :=
      le_min (le_max_right _ _) h2
    have hte : clamp_to_bounds clip (get_abs_clip_pts clip pts) ≤ clip.orig_end_pts :=
      min_le_right _ _
    unfold seek_clip_pts
    rw [if_neg (by push_neg; exact ⟨le_trans h1 hts, le_trans hte h3⟩)]
    refine ⟨rfl, rfl, hts, hte, rfl, rfl, ?_⟩
    intro h
    simp at h
  · intro idx
    rfl

/-- Witness for C3: seeking the scenario clip to relative pts 1000000 (far
past its length) succeeds and lands on the clamped position. -/
theorem seek_clip_clamps_and_succeeds_witness :
    (seek_clip_pts sampleCtx sampleClip 1000000).1 = 0 ∧
    (seek_clip_pts sampleCtx sampleClip 1000000).2.seek_pts =
      clamp_to_bounds sampleClip (get_abs_clip_pts sampleClip 1000000) := by
  have h := (seek_clip_clamps_and_succeeds sampleCtx sampleClip
    (by decide) (by decide) (by decide)).1 1000000
  exact ⟨h.1, h.2.1⟩

/-- C6: the documented cursor invariant orig_start_pts ≤ seek_pts ≤
orig_end_pts holds immediately after open and after a successful bounded
open, and is preserved by relative seeks (both forms), by packet reads and
by the packet counter reset. -/
theorem seek_pts_invariant_all_ops (ctx : VideoContext) (clip : Clip)
    (hle : clip.orig_start_pts ≤ clip.orig_end_pts) :
    seek_pts_invariant (open_clip clip) ∧
    (∀ s e : Int, 0 ≤ (open_clip_bounds ctx clip s e).1 →
      seek_pts_invariant (open_clip_bounds ctx clip s e).2) ∧
    (∀ pts : Int, seek_pts_invariant clip →
      seek_pts_invariant (seek_clip_pts ctx clip pts).2) ∧
    (∀ idx : Int, seek_pts_invariant clip →
      seek_pts_invariant (seek_clip ctx clip idx).2) ∧
    (∀ rem : List Packet, seek_pts_invariant clip →
      seek_pts_invariant (clip_read_packet ctx clip rem).1) ∧
    seek_pts_invariant (reset_packet_counter clip) := by
  have hseek : ∀ pts : Int, seek_pts_invariant clip →
      seek_pts_invariant (seek_clip_pts ctx clip pts).2 := by
    intro pts hinv
    unfold seek_clip_pts
    split_ifs with hc
    · exact hinv
    · exact ⟨le_min (le_max_right _ _) hle, min_le_right _ _⟩
  refine ⟨open_clip_invariant clip hle, ?_, hseek, ?_, ?_, ?_⟩
  · intro s e h
    unfold open_clip_bounds at h ⊢
    split_ifs at h ⊢ with hc
    · omega
    · unfold set_clip_bounds at hc ⊢
      split_ifs at hc ⊢ with hb
      · simp at hc
      · push_neg at hb
        exact open_clip_invariant _ hb.1
  · intro idx hinv
    exact hseek _ hinv
  · intro rem hinv
    unfold clip_read_packet
    split_ifs with h1 h2
    · obtain ⟨hs, ho, he⟩ := read_loop_preserves_cursor
        (seek_stream ctx clip.orig_start_pts) (rewind_clip clip)
      unfold seek_pts_invariant
      rw [hs, ho, he]
      exact ⟨le_refl _, hle⟩
    · obtain ⟨hs, ho, he⟩ := read_loop_preserves_cursor rem clip
      unfold seek_pts_invariant at hinv ⊢
      rw [hs, ho, he]
      exact hinv
    · exact hinv
  · exact ⟨le_refl _, hle⟩

/-- Witness for C6: the invariant concretely after opening and after
resetting the scenario clip. -/
theorem seek_pts_invariant_all_ops_witness :
    seek_pts_invariant (open_clip sampleClip) ∧
    seek_pts_invariant (reset_packet_counter sampleClip) := by
  have h := seek_pts_invariant_all_ops sampleCtx sampleClip (by decide)
  exact ⟨h.1, h.2.2.2.2.2⟩

/-- A packet's stream stays exhausted when any stream is marked exhausted. -/
lemma done_curr_set_done (c : Clip) (p q : Packet)
    (h : done_curr_pkt_stream c q = true) :
    done_curr_pkt_stream (set_done_pkt_stream c p) q = true := by
  unfold done_curr_pkt_stream set_done_pkt_stream at *
  split_ifs at h ⊢ <;> simp_all

/-- Marking a packet's stream exhausted makes that packet's stream read as
exhausted. -/
lemma done_curr_set_done_self (c : Clip) (p : Packet) :
    done_curr_pkt_stream (set_done_pkt_stream c p) p = true := by
  unfold done_curr_pkt_stream set_done_pkt_stream
  split_ifs <;> simp_all

/-- The read loop never clears an exhaustion flag: a stream exhausted on
entry is still exhausted in the clip state the loop returns. -/
lemma read_loop_flags_monotone (l : List Packet) :
    ∀ (c : Clip) (q : Packet), done_curr_pkt_stream c q = true →
      done_curr_pkt_stream (read_loop c l).1 q = true := by
  induction l with
  | nil => intro c q h; exact h
  | cons pkt rest ih =>
    intro c q h
    rw [read_loop]
    split_ifs with hdone hend hboth hstart hvid
    · exact ih c q h
    · exact done_curr_set_done c pkt q h
    · exact ih (set_done_pkt_stream c pkt) q (done_curr_set_done c pkt q h)
    · exact ih c q h
    · unfold done_curr_pkt_stream at *
      split_ifs at h ⊢ <;> simp_all
    · exact h

/-- Every packet the read loop delivers lies inside the clip bounds of the
clip state it started from. -/
lemma read_loop_packet_in_bounds (l : List Packet) :
    ∀ (c c2 : Clip) (r2 : List Packet) (p : Packet),
      read_loop c l = (c2, r2, ReadResult.packet p) →
      c.orig_start_pts ≤ p.pts ∧ p.pts ≤ c.orig_end_pts := by
  induction l with
  | nil =>
    intro c c2 r2 p h
    simp [read_loop] at h
  | cons pkt rest ih =>
    intro c c2 r2 p h
    rw [read_loop] at h
    split_ifs at h with hdone hend hboth hstart hvid
    · exact ih c c2 r2 p h
    · simp at h
    · have hb := ih (set_done_pkt_stream c pkt) c2 r2 p h
      obtain ⟨-, g2, g3⟩ := set_done_pkt_stream_fields c pkt
      rw [g2, g3] at hb
      exact hb
    · exact ih c c2 r2 p h
    · simp only [Prod.mk.injEq, ReadResult.packet.injEq] at h
      obtain ⟨-, -, hp⟩ := h
      subst hp
      omega
    · simp only [Prod.mk.injEq, ReadResult.packet.injEq] at h
      obtain ⟨-, -, hp⟩ := h
      subst hp
      omega

/-- C1: every packet a clip_read_packet call delivers has its native
timestamp inside [orig_start_pts, orig_end_pts]; and when the next demuxed
packet lies beyond orig_end_pts on a not-yet-exhausted stream, the call
marks that stream's exhaustion flag and does not return that packet. -/
theorem clip_read_packet_returns_in_bounds (ctx : VideoContext) (clip : Clip) :
    (∀ (rem : List Packet) (c2 : Clip) (r2 : List Packet) (p : Packet),
      clip_read_packet ctx clip rem = (c2, r2, ReadResult.packet p) →
      clip.orig_start_pts ≤ p.pts ∧ p.pts ≤ clip.orig_end_pts) ∧
    (∀ (pkt : Packet) (rest : List Packet),
      clip.isOpen = true →
      (clip.done_reading_video && clip.done_reading_audio) = false →
      done_curr_pkt_stream clip pkt = false →
      clip.orig_end_pts < pkt.pts →
      done_curr_pkt_stream (clip_read_packet ctx clip (pkt :: rest)).1 pkt = true ∧
      (∀ (c2 : Clip) (r2 : List Packet) (q : Packet),
        clip_read_packet ctx clip (pkt :: rest) = (c2, r2, ReadResult.packet q) →
        q ≠ pkt)) := by
  constructor
  · intro rem c2 r2 p h
    unfold clip_read_packet at h
    split_ifs at h with h1 h2
    · exact read_loop_packet_in_bounds _ (rewind_clip clip) _ _ _ h
    · exact read_loop_packet_in_bounds _ clip _ _ _ h
    · simp at h
  · intro pkt rest hopen hflags hdone hend
    unfold clip_read_packet
    rw [if_neg (by simp [hopen]), if_neg (by simp [hflags])]
    rw [read_loop]
    rw [if_neg (by simp [hdone]), if_pos hend]
    split_ifs with hboth
    · constructor
      · exact done_curr_set_done_self clip pkt
      · intro c2 r2 q h
        simp at h
    · constructor
      · exact read_loop_flags_monotone rest (set_done_pkt_stream clip pkt) pkt
          (done_curr_set_done_self clip pkt)
      · intro c2 r2 q h
        have hb := read_loop_packet_in_bounds rest (set_done_pkt_stream clip pkt) c2 r2 q h
        obtain ⟨-, -, g3⟩ := set_done_pkt_stream_fields clip pkt
        rw [g3] at hb
        intro hqp
        rw [hqp] at hb
        omega

/-- Witness for C1 on the scenario: the first delivered packet (video pts
90000) is inside the bounds, and a demuxed packet at pts 300000 marks its
stream exhausted instead of being returned. -/
theorem clip_read_packet_returns_in_bounds_witness :
    (sampleClip.orig_start_pts ≤ (90000 : Int) ∧
      (90000 : Int) ≤ sampleClip.orig_end_pts) ∧
    done_curr_pkt_stream
      (clip_read_packet sampleCtx sampleClip
        [{ stream := StreamKind.video, pts := 300000 }]).1
      { stream := StreamKind.video, pts := 300000 } = true := by
  constructor
  · exact (clip_read_packet_returns_in_bounds sampleCtx sampleClip).1
      sampleCtx.packets
      { sampleClip with current_frame_idx := 1 }
      [ { stream := StreamKind.audio, pts := 90000 }
      , { stream := StreamKind.video, pts := 180000 }
      , { stream := StreamKind.video, pts := 300000 }
      , { stream := StreamKind.audio, pts := 300000 } ]
      { stream := StreamKind.video, pts := 90000 }
      (by decide)
  · exact ((clip_read_packet_returns_in_bounds sampleCtx sampleClip).2
      { stream := StreamKind.video, pts := 300000 } []
      (by decide) (by decide) (by decide) (by decide)).1

/-- C2: on an opened clip whose pass has exhausted both streams, the next
clip_read_packet call first performs the implicit rewind — the demuxer is
re-positioned at orig_start_pts, the cursor returns to orig_start_pts and
both exhaustion flags are cleared — and then reads, so that (the rewound
stream starting with an in-range packet) this first read after exhaustion
delivers a packet, a success outcome. -/
theorem clip_read_packet_auto_rewind (ctx : VideoContext) (clip : Clip)
    (rem : List Packet) (pkt : Packet) (rest : List Packet)
    (hopen : clip.isOpen = true)
    (hv : clip.done_reading_video = true)
    (ha : clip.done_reading_audio = true)
    (hseek : seek_stream ctx clip.orig_start_pts = pkt :: rest)
    (hp1 : clip.orig_start_pts ≤ pkt.pts)
    (hp2 : pkt.pts ≤ clip.orig_end_pts) :
    clip_read_packet ctx clip rem =
      read_loop (rewind_clip clip) (seek_stream ctx clip.orig_start_pts) ∧
    (rewind_clip clip).seek_pts = clip.orig_start_pts ∧
    (rewind_clip clip).done_reading_video = false ∧
    (rewind_clip clip).done_reading_audio = false ∧
    (∃ c2 : Clip,
      clip_read_packet ctx clip rem = (c2, rest, ReadResult.packet pkt)) := by
  have hmain : clip_read_packet ctx clip rem =
      read_loop (rewind_clip clip) (seek_stream ctx clip.orig_start_pts) := by
    unfold clip_read_packet
    rw [if_neg (by simp [hopen]), if_pos (by simp [hv, ha])]
  refine ⟨hmain, rfl, rfl, rfl, ?_⟩
  have hd : done_curr_pkt_stream (rewind_clip clip) pkt = false := by
    unfold done_curr_pkt_stream rewind_clip
    split_ifs <;> rfl
  have h1 : ¬ ((rewind_clip clip).orig_end_pts < pkt.pts) := not_lt.mpr hp2
  have h2 : ¬ (pkt.pts < (rewind_clip clip).orig_start_pts) := not_lt.mpr hp1
  rw [hmain, hseek, read_loop]
  rw [if_neg (by simp [hd]), if_neg h1, if_neg h2]
  by_cases hs : pkt.stream = StreamKind.video
  · rw [if_pos hs]
    exact ⟨_, rfl⟩
  · rw [if_neg hs]
    exact ⟨_, rfl⟩

/-- Witness for C2: the exhausted scenario clip's next read rewinds and
delivers the first in-range packet (video pts 90000). -/
theorem clip_read_packet_auto_rewind_witness :
    ∃ c2 : Clip,
      clip_read_packet sampleCtx exhaustedSampleClip [] =
        (c2,
          [ { stream := StreamKind.audio, pts := 90000 }
          , { stream := StreamKind.video, pts := 180000 }
          , { stream := StreamKind.video, pts := 300000 }
          , { stream := StreamKind.audio, pts := 300000 } ],
          ReadResult.packet { stream := StreamKind.video, pts := 90000 }) :=
  (clip_read_packet_auto_rewind sampleCtx exhaustedSampleClip []
    { stream := StreamKind.video, pts := 90000 }
    [ { stream := StreamKind.audio, pts := 90000 }
    , { stream := StreamKind.video, pts := 180000 }
    , { stream := StreamKind.video, pts := 300000 }
    , { stream := StreamKind.audio, pts := 300000 } ]
    (by decide) (by decide) (by decide) (by decide) (by decide)
    (by decide)).2.2.2.2

/-- The integer-only computation in rescale_round is exactly the rounded
value of the rational n / d, for a positive denominator d. -/
lemma rescale_round_eq_round (n d : Int) (hd : 0 < d) :
    rescale_round n d = round ((n : ℚ) / d) := by
  unfold rescale_round
  have h2d : (0:ℤ) ≤ 2 * d := by positivity
  rw [Int.fdiv_eq_ediv _ h2d, round_eq]
  have h1 : ((2 * d).toNat : ℤ) = 2 * d := Int.toNat_of_nonneg h2d
  have h2 : (((2 * d).toNat : ℕ) : ℚ) = ((2 * d : ℤ) : ℚ) := by exact_mod_cast h1
  have hcast : ((n : ℚ) / d + 1 / 2) =
      ((2 * n + d : ℤ) : ℚ) / (((2 * d).toNat : ℕ) : ℚ) := by
    rw [h2]
    have hd0 : (d : ℚ) ≠ 0 := by exact_mod_cast hd.ne.symm
    push_cast
    field_simp
    ring
  rw [hcast, Rat.floor_intCast_div_natCast, h1]

/-- C7: clip_ts_audio converts a video-stream timestamp into the audio clock
by the exact rational rescale round(t * (aNum * bDen) / (aDen * bNum)) on
the clip-relative timestamp t, with clock A the video time base and clock B
the audio time base; and for multi-hour media (relative timestamps up to
2^42 ticks) at time-base components up to 100000, every integer the
computation touches stays below 2^127, inside a 128-bit-wide arithmetic. -/
theorem clip_ts_audio_exact_rescale (ctx : VideoContext) (clip : Clip) (t : Int)
    (hden : 0 < (get_clip_video_time_base ctx).den * (get_clip_audio_time_base ctx).num) :
    clip_ts_audio ctx clip t =
      round (((clip_ts_video clip t *
          ((get_clip_video_time_base ctx).num * (get_clip_audio_time_base ctx).den) : ℤ) : ℚ) /
        (((get_clip_video_time_base ctx).den * (get_clip_audio_time_base ctx).num : ℤ) : ℚ)) ∧
    (|clip_ts_video clip t| ≤ 2 ^ 42 →
      |(get_clip_video_time_base ctx).num| ≤ 100000 →
      |(get_clip_video_time_base ctx).den| ≤ 100000 →
      |(get_clip_audio_time_base ctx).num| ≤ 100000 →
      |(get_clip_audio_time_base ctx).den| ≤ 100000 →
      |2 * (clip_ts_video clip t *
          ((get_clip_video_time_base ctx).num * (get_clip_audio_time_base ctx).den)) +
        (get_clip_video_time_base ctx).den * (get_clip_audio_time_base ctx).num| < 2 ^ 127) := by
  constructor
  · unfold clip_ts_audio
    exact rescale_round_eq_round _ _ hden
  · intro hT hvn hvd han had
    calc |2 * (clip_ts_video clip t *
            ((get_clip_video_time_base ctx).num * (get_clip_audio_time_base ctx).den)) +
          (get_clip_video_time_base ctx).den * (get_clip_audio_time_base ctx).num|
        ≤ |2 * (clip_ts_video clip t *
            ((get_clip_video_time_base ctx).num * (get_clip_audio_time_base ctx).den))| +
          |(get_clip_video_time_base ctx).den * (get_clip_audio_time_base ctx).num| :=
        abs_add _ _
      _ = 2 * (|clip_ts_video clip t| *
            (|(get_clip_video_time_base ctx).num| * |(get_clip_audio_time_base ctx).den|)) +
          |(get_clip_video_time_base ctx).den| * |(get_clip_audio_time_base ctx).num| := by
        rw [abs_mul, abs_mul, abs_mul, abs_mul]
        norm_num
      _ ≤ 2 * ((2 ^ 42) * (100000 * 100000)) + 100000 * 100000 := by
        gcongr
      _ < 2 ^ 127 := by norm_num

/-- Witness for C7 on the scenario clocks (video 1/90000, audio 1/48000):
the conversion of the raw video timestamp 180000 is the exact rounded
rescale and its intermediates fit the wide arithmetic. -/
theorem clip_ts_audio_exact_rescale_witness :
    clip_ts_audio sampleCtx sampleClip 180000 =
      round (((clip_ts_video sampleClip 180000 *
          ((get_clip_video_time_base sampleCtx).num *
            (get_clip_audio_time_base sampleCtx).den) : ℤ) : ℚ) /
        (((get_clip_video_time_base sampleCtx).den *
          (get_clip_audio_time_base sampleCtx).num : ℤ) : ℚ)) ∧
    |2 * (clip_ts_video sampleClip 180000 *
        ((get_clip_video_time_base sampleCtx).num *
          (get_clip_audio_time_base sampleCtx).den)) +
      (get_clip_video_time_base sampleCtx).den *
        (get_clip_audio_time_base sampleCtx).num| < 2 ^ 127 := by
  have h := clip_ts_audio_exact_rescale sampleCtx sampleClip 180000 (by decide)
  exact ⟨h.1, h.2 (by decide) (by decide) (by decide) (by decide) (by decide)⟩
